import Mathlib

/-!
Shallow embedding of the perfume storefront backend (src/main.py and
src/schemas.py). External effects — the document store, the Stripe client,
the Google Sheets client, environment variables — are passed in as explicit
oracle values, so every route handler becomes a total function from inputs
and oracle outcomes to its HTTP-level result. Exceptions raised by the
Python code are represented by an `Except` error value; pydantic field
constraints (`ge=...`) are modelled by validating constructors.
-/

namespace Backend

/-- Python truthiness for an optional string: `None` and the empty string
are falsy (`if not spreadsheet_id`, `if stripe_key` in main.py). -/
def isTruthy : Option String → Bool
  | none => false
  | some s => s != ""

/-- Python `x or default` for an optional string: `None` and `""` give the
default (`lead.phone or ""`, `getattr(db, "name", None) or "Unknown"`). -/
def pyOr (o : Option String) (default : String) : String :=
  match o with
  | none => default
  | some s => if s == "" then default else s

/-- Python `int(v or 0)` on an optional integer field: a missing value or a
falsy value (0) gives 0 (`int(prod.get("price_cents") or 0)` in main.py). -/
def pyOrZeroInt : Option Int → Int
  | none => 0
  | some v => if v == 0 then 0 else v

/-- Errors surfaced by a route handler: an `HTTPException` with status and
detail, a pydantic validation failure (becomes a 500), or a store failure
propagating out of `create_document` (becomes a 500). -/
inductive ApiError where
  | http (status : Nat) (detail : String)
  | validationError (msg : String)
  | storeError (msg : String)
  deriving Repr, DecidableEq

/-- Lead record, as in schemas.py (`Lead`) and the request model `LeadIn` of
main.py, which has the same fields; emails are kept as plain strings since
`EmailStr` validation happens at request parsing, outside the claims. -/
structure Lead where
  name : String
  email : String
  phone : Option String := none
  interest : Option String := none
  source : Option String := some "website"
  notes : Option String := none
  deriving Repr, DecidableEq

/-- Product as validated by the pydantic schema (schemas.py `Product`); this
is what the seeder constructs and inserts. -/
structure Product where
  title : String
  description : Option String := none
  price_cents : Int
  currency : String := "usd"
  image : Option String := none
  in_stock : Bool := true
  tags : Option (List String) := none
  deriving Repr, DecidableEq

/-- Product document as read back from the document store by
`get_documents("product")`: a raw record carrying its assigned identifier
(`str(p["_id"])`) and possibly missing fields, accessed with `.get`. -/
structure ProductDoc where
  id : String
  title : Option String := none
  description : Option String := none
  price_cents : Option Int := none
  currency : Option String := none
  deriving Repr, DecidableEq

/-- Order record, as in schemas.py (`Order`). The datetime fields, always
absent in this system, are modelled as optional opaque values. -/
structure Order where
  product_id : String
  quantity : Int
  amount_total_cents : Int
  currency : String := "usd"
  status : String := "created"
  customer_email : Option String := none
  checkout_session_id : Option String := none
  created_at : Option Nat := none
  updated_at : Option Nat := none
  deriving Repr, DecidableEq

/-- Validating constructor for `Order`: the pydantic fields carry
`quantity: ge=1` and `amount_total_cents: ge=0`, so construction raises a
`ValidationError` when either bound is violated. -/
def mkOrder (product_id : String) (quantity : Int) (amount_total_cents : Int)
    (customer_email : Option String) : Except ApiError Order :=
  if quantity < 1 then
    .error (.validationError "quantity: input should be greater than or equal to 1")
  else if amount_total_cents < 0 then
    .error (.validationError "amount_total_cents: input should be greater than or equal to 0")
  else
    .ok { product_id := product_id, quantity := quantity,
          amount_total_cents := amount_total_cents,
          customer_email := customer_email }

/-- Cart line item, as in the request model `CheckoutItem` of main.py. -/
structure CheckoutItem where
  product_id : String
  quantity : Int := 1
  deriving Repr, DecidableEq

/-- Checkout request body, as in the request model `CheckoutRequest`. -/
structure CheckoutRequest where
  items : List CheckoutItem
  customer_email : Option String := none
  deriving Repr, DecidableEq

/-- Line item accumulated by the pricing loop of
`create_checkout_session` (name, amount, currency, clamped quantity). -/
structure LineItem where
  name : Option String
  amount : Int
  currency : String
  quantity : Int
  deriving Repr, DecidableEq

/-- Line item in the Stripe format built inside the Stripe branch
(`price_data` with currency, product name and unit amount, plus quantity). -/
structure StripeLineItem where
  currency : String
  product_name : Option String
  unit_amount : Int
  quantity : Int
  deriving Repr, DecidableEq

/-- State of the document store collections the checkout flow touches. -/
structure Store where
  products : List ProductDoc
  orders : List Order
  deriving Repr, DecidableEq

/-- Lookup in the `by_id` dictionary built by
`for p in products: by_id[str(p.get("_id"))] = p`: the last document with a
given id wins, and a missing id gives `None`. -/
def buildById (products : List ProductDoc) (pid : String) : Option ProductDoc :=
  products.reverse.find? (fun p => p.id == pid)

/-- Pricing loop of `create_checkout_session` (main.py lines 162 to 174):
resolve each item against `by_id`, raise a 404 `HTTPException` at the first
unresolved product id, otherwise clamp the quantity with `max(1, quantity)`,
coerce the price with `int(... or 0)`, and accumulate the total in integer
cents together with the line item list. -/
def priceCart (lookup : String → Option ProductDoc) :
    List CheckoutItem → Except ApiError (Int × List LineItem)
  | [] => .ok (0, [])
  | it :: rest =>
    match lookup it.product_id with
    | none => .error (.http 404 ("Product not found: " ++ it.product_id))
    | some prod =>
      match priceCart lookup rest with
      | .error e => .error e
      | .ok (amt, lis) =>
        .ok (pyOrZeroInt prod.price_cents * max 1 it.quantity + amt,
          { name := prod.title, amount := pyOrZeroInt prod.price_cents,
            currency := prod.currency.getD "usd",
            quantity := max 1 it.quantity } :: lis)

/-- Per-item amount as the spec states it: the resolved catalog product
price in cents times the clamped quantity `max(1, quantity)`. -/
def lineAmount (lookup : String → Option ProductDoc) (it : CheckoutItem) : Int :=
  pyOrZeroInt ((lookup it.product_id).bind (fun p => p.price_cents)) * max 1 it.quantity

/-- Stripe line items built inside the `try` block (main.py lines 195 to
205); `by_id[it.product_id]` raises a `KeyError` on a missing id, which the
surrounding `except` turns into the fallback, so the result is optional. -/
def stripeLineItems (lookup : String → Option ProductDoc) :
    List CheckoutItem → Option (List StripeLineItem)
  | [] => some []
  | it :: rest =>
    match lookup it.product_id with
    | none => none
    | some prod =>
      (stripeLineItems lookup rest).map (fun ls =>
        { currency := prod.currency.getD "usd", product_name := prod.title,
          unit_amount := pyOrZeroInt prod.price_cents,
          quantity := max 1 it.quantity } :: ls)

/-- Oracle outcomes for one run of `create_checkout_session`: the
`STRIPE_SECRET_KEY` environment value, the outcome of the whole Stripe
session creation call (url on success, any raised exception otherwise), the
identifier the store assigns to the new order, and whether
`create_document("order", ...)` succeeds. -/
structure CheckoutCtx where
  stripe_key : Option String
  stripeSession : Except String String
  newOrderId : String
  orderInsertOk : Bool
  deriving Repr

/-- Response body of `create_checkout_session`; `note` is present only on
the mock fallback path. -/
structure CheckoutResponse where
  checkout_url : String
  order_id : String
  note : Option String
  deriving Repr, DecidableEq

/-- Explanatory note returned with the mock checkout URL. -/
def mockNote : String :=
  "Stripe not configured; using mock checkout URL. Set STRIPE_SECRET_KEY to enable real payments."

/-- Mock fallback response of main.py lines 219 to 224: a deterministic
checkout URL derived from the order id, plus the explanatory note. -/
def fallbackResponse (order_id : String) : CheckoutResponse :=
  { checkout_url := "https://checkout.mock/" ++ order_id, order_id := order_id,
    note := some mockNote }

/-- Stripe branch of `create_checkout_session` (main.py lines 186 to 224):
when the key is truthy, build the Stripe line items and attempt the session
inside a `try`; any failure (including a `KeyError` while building the line
items) falls through to the mock fallback, and so does an untruthy key. -/
def stripeAttempt (ctx : CheckoutCtx) (lookup : String → Option ProductDoc)
    (items : List CheckoutItem) (order_id : String) : CheckoutResponse :=
  if isTruthy ctx.stripe_key then
    match stripeLineItems lookup items with
    | none => fallbackResponse order_id
    | some _ =>
      match ctx.stripeSession with
      | .ok url => { checkout_url := url, order_id := order_id, note := none }
      | .error _ => fallbackResponse order_id
  else fallbackResponse order_id

/-- The checkout route handler `create_checkout_session` (main.py lines 142
to 224). Returns the HTTP-level outcome together with the store state after
the call; error paths leave the store unchanged, because every raise in the
source happens before (or instead of) the order insert. -/
def create_checkout_session (ctx : CheckoutCtx) (store : Store)
    (payload : CheckoutRequest) : Except ApiError CheckoutResponse × Store :=
  match payload.items with
  | [] => (.error (.http 400 "No items provided"), store)
  | first :: rest =>
    match priceCart (buildById store.products) (first :: rest) with
    | .error e => (.error e, store)
    | .ok (amount_total, _line_items) =>
      match mkOrder first.product_id (((first :: rest).map (fun it => it.quantity)).sum)
          amount_total payload.customer_email with
      | .error e => (.error e, store)
      | .ok order =>
        if ctx.orderInsertOk then
          (.ok (stripeAttempt ctx (buildById store.products) (first :: rest) ctx.newOrderId),
            { store with orders := store.orders ++ [order] })
        else (.error (.storeError "order insert failed"), store)

/-- The fixed sample catalog of `ensure_sample_products` (main.py lines 102
to 106). -/
def sample_products : List Product :=
  [ { title := "Citrus Bloom", description := some "Fresh citrus with floral heart.",
      price_cents := 5900, currency := "usd",
      image := some "https://images.unsplash.com/photo-1608571424053-c7c3a1e3a1cc?q=80&w=1600&auto=format&fit=crop",
      tags := some ["citrus", "daytime"] },
    { title := "Amber Dusk", description := some "Warm amber and vanilla.",
      price_cents := 7200, currency := "usd",
      image := some "https://images.unsplash.com/photo-1541643600914-78b084683601?q=80&w=1600&auto=format&fit=crop",
      tags := some ["amber", "evening"] },
    { title := "Verdant Mist", description := some "Green notes with a dewy finish.",
      price_cents := 6400, currency := "usd",
      image := some "https://images.unsplash.com/photo-1600180758890-6b94519a8ba6?q=80&w=1600&auto=format&fit=crop",
      tags := some ["green", "unisex"] } ]

/-- The seeder `ensure_sample_products` (main.py lines 94 to 111): query one
existing product; a raised store error or a non-empty result aborts with no
insert; otherwise insert each sample, skipping the ones whose individual
insert raises. `queryFails` is the outcome of the existence query,
`insertOk` the per-sample insert outcome, and `toDoc` the document the store
records for a sample (it assigns the opaque id). -/
def ensure_sample_products (queryFails : Bool) (insertOk : Product → Bool)
    (toDoc : Product → ProductDoc) (store : List ProductDoc) : List ProductDoc :=
  if queryFails then store
  else if (store.take 1).isEmpty then
    sample_products.foldl (fun st s => if insertOk s then st ++ [toDoc s] else st) store
  else store

/-- The product listing route `list_products` (main.py lines 119 to 127):
runs the seeder, then returns the product collection; it is the only caller
of `ensure_sample_products`. -/
def list_products (queryFails : Bool) (insertOk : Product → Bool)
    (toDoc : Product → ProductDoc) (store : List ProductDoc) :
    List ProductDoc × List ProductDoc :=
  let store2 := ensure_sample_products queryFails insertOk toDoc store
  (store2, store2)

/-- Oracle outcomes for the Google Sheets integration: the three environment
values, whether the Google client libraries import, the behaviour of
`json.loads` on a credential string (`some` = parsed service-account info,
abstracted as its normalised text), the behaviour of
`base64.b64decode(...).decode("utf-8")`, and the combined
credentials/build/append API call (error = any raised exception, ok = the
optional `updatedRange` of the response). -/
structure SheetsCtx where
  spreadsheet_id : Option String
  service_account_json : Option String
  leads_range : Option String
  googleLibsOk : Bool
  jsonParse : String → Option String
  b64decode : String → Option String
  apiAppend : String → String → List (List String) → Except String (Option String)

/-- Credential parsing of main.py lines 41 to 47: try `json.loads`
directly; on a decode error, base64-decode and parse the result. A failure
of the base64 decode or of the second parse raises into the surrounding
`except`, which the caller renders as `None`; here every failure is `none`. -/
def parseServiceAccount (jsonParse : String → Option String)
    (b64decode : String → Option String) (s : String) : Option String :=
  match jsonParse s with
  | some info => some info
  | none =>
    match b64decode s with
    | none => none
    | some decoded => jsonParse decoded

/-- Python `str(...)` applied to the optional `updatedRange` value:
`str(None)` is the literal string `None`. -/
def pyStrOfOpt : Option String → String
  | none => "None"
  | some s => s

/-- The sheets adapter `append_lead_to_google_sheets` (main.py lines 24 to
72): not configured (missing or empty spreadsheet id or credential) gives
`None`; missing Google libraries give `None`; a credential that parses
neither directly nor through base64 gives `None`; any API failure gives
`None`; success gives the updated range. -/
def append_lead_to_google_sheets (ctx : SheetsCtx) (lead : Lead) : Option String :=
  let sheet_range := ctx.leads_range.getD "Leads!A:F"
  match ctx.spreadsheet_id, ctx.service_account_json with
  | some sid, some saj =>
    if sid == "" || saj == "" then none
    else if !ctx.googleLibsOk then none
    else
      match parseServiceAccount ctx.jsonParse ctx.b64decode saj with
      | none => none
      | some info =>
        let values := [[lead.name, lead.email, pyOr lead.phone "",
          pyOr lead.interest "", pyOr lead.source "website", pyOr lead.notes ""]]
        match ctx.apiAppend info sheet_range values with
        | .error _ => none
        | .ok updatedRange => some (pyStrOfOpt updatedRange)
  | _, _ => none

/-- Response body of `create_lead`. -/
structure LeadResponse where
  status : String
  id : String
  google_range : Option String
  deriving Repr, DecidableEq

/-- The lead intake route `create_lead` (main.py lines 129 to 140):
persistence failure raises a 500; on success the sheets sync is attempted
best-effort and its result (possibly `None`) is returned as `google_range`.
`insertResult` is the outcome of `create_document("lead", ...)`. -/
def create_lead (sctx : SheetsCtx) (insertResult : Except String String)
    (lead : Lead) : Except ApiError LeadResponse :=
  match insertResult with
  | .error e => .error (.http 500 ("Database error: " ++ e))
  | .ok inserted_id =>
    .ok { status := "ok", id := inserted_id,
          google_range := append_lead_to_google_sheets sctx lead }

/-- Handle on the store connection as seen by the diagnostics route: its
optional `name` attribute and the outcome of `list_collection_names()`. -/
structure DbHandle where
  name : Option String
  listCollections : Except String (List String)
  deriving Repr

/-- Response body of the diagnostics route `test_database`. -/
structure TestResponse where
  backend : String
  database : String
  database_url : Option String
  database_name : Option String
  connection_status : String
  collections : List String
  deriving Repr, DecidableEq

/-- The diagnostics route `test_database` (main.py lines 226 to 253): if the
handle is absent, report it; otherwise report availability, whether
`DATABASE_URL` is set, the handle name (`... or "Unknown"`), and either up
to 10 collection names or the listing error rendered as a status string
truncated to 80 characters. Every failure is an oracle outcome, so the
function is total: it always returns a response. -/
def test_database (db : Option DbHandle) (database_url : Option String) : TestResponse :=
  match db with
  | none =>
    { backend := "✅ Running", database := "⚠️ Available but not initialized",
      database_url := none, database_name := none,
      connection_status := "Not Connected", collections := [] }
  | some h =>
    let url_status := if isTruthy database_url then "✅ Set" else "❌ Not Set"
    let nm := pyOr h.name "Unknown"
    match h.listCollections with
    | .ok cols =>
      { backend := "✅ Running", database := "✅ Connected & Working",
        database_url := some url_status, database_name := some nm,
        connection_status := "Connected", collections := cols.take 10 }
    | .error e =>
      { backend := "✅ Running", database := "⚠️ Connected but Error: " ++ e.take 80,
        database_url := some url_status, database_name := some nm,
        connection_status := "Connected", collections := [] }

/-! Concrete fixtures used by the witness theorems. -/

/-- Catalog document for a product priced 5900 cents. -/
def p1doc : ProductDoc :=
  { id := "p1", title := some "Citrus Bloom", price_cents := some 5900,
    currency := some "usd" }

/-- Catalog document with no price field recorded. -/
def pfreedoc : ProductDoc := { id := "free", title := some "Sample" }

/-- Store holding exactly the 5900-cent product and no orders. -/
def storeP1 : Store := { products := [p1doc], orders := [] }

/-- Store with an empty, never-seeded catalog. -/
def storeEmpty : Store := { products := [], orders := [] }

/-- Checkout oracle with no Stripe key configured and a succeeding order
insert that assigns the id order123. -/
def ctxNoStripe : CheckoutCtx :=
  { stripe_key := none, stripeSession := .error "stripe unavailable",
    newOrderId := "order123", orderInsertOk := true }

/-- Cart of one line item, quantity 2, for the 5900-cent product. -/
def payload2 : CheckoutRequest :=
  { items := [{ product_id := "p1", quantity := 2 }], customer_email := some "a@b.co" }

/-- Cart of one line item with quantity 0. -/
def payloadQ0 : CheckoutRequest :=
  { items := [{ product_id := "p1", quantity := 0 }] }

/-- Cart of two line items with quantities 0 and 2. -/
def payloadQ02 : CheckoutRequest :=
  { items := [{ product_id := "p1", quantity := 0 },
              { product_id := "p1", quantity := 2 }] }

/-- Empty cart. -/
def payloadEmptyCart : CheckoutRequest := { items := [] }

/-- Cart referencing a product id absent from the catalog. -/
def payloadGhost : CheckoutRequest := { items := [{ product_id := "ghost" }] }

/-- Order produced by checking out `payload2` against `storeP1`. -/
def order2 : Order :=
  { product_id := "p1", quantity := 2, amount_total_cents := 11800,
    customer_email := some "a@b.co" }

/-- Store state after checking out `payload2` against `storeP1`. -/
def storeP1After : Store := { products := [p1doc], orders := [order2] }

/-- Sheets oracle whose credential parses neither as JSON nor as base64. -/
def sctxBadCred : SheetsCtx :=
  { spreadsheet_id := some "sheet1", service_account_json := some "%%%",
    leads_range := none, googleLibsOk := true,
    jsonParse := fun _ => none, b64decode := fun _ => none,
    apiAppend := fun _ _ _ => .error "unused" }

/-- Minimal valid lead. -/
def lead0 : Lead := { name := "Ada", email := "ada@example.com" }

/-- Store handle whose collection listing raises. -/
def dbErrHandle : DbHandle :=
  { name := some "mydb", listCollections := .error "boom" }

/-! Helper lemmas shared by the claim theorems. -/

/-- Inversion for the validating order constructor: a successful
construction yields exactly the record `create_checkout_session` builds,
with status created and no checkout session id. -/
theorem mkOrder_ok_eq {pid : String} {q amt : Int} {em : Option String} {o : Order}
    (h : mkOrder pid q amt em = .ok o) :
    o = { product_id := pid, quantity := q, amount_total_cents := amt,
          customer_email := em } := by
  unfold mkOrder at h
  split at h
  · exact Except.noConfusion h
  · split at h
    · exact Except.noConfusion h
    · injection h with h'
      exact h'.symm

/-- A successful pricing pass returns the sum of the per-item amounts. -/
theorem priceCart_amount {lookup : String → Option ProductDoc} :
    ∀ {items : List CheckoutItem} {amt : Int} {lis : List LineItem},
    priceCart lookup items = .ok (amt, lis) →
    amt = (items.map (lineAmount lookup)).sum := by
  intro items
  induction items with
  | nil =>
    intro amt lis h
    simp only [priceCart, Except.ok.injEq, Prod.mk.injEq] at h
    simp [← h.1]
  | cons it rest ih =>
    intro amt lis h
    rcases hl : lookup it.product_id with _ | prod
    · simp only [priceCart, hl] at h
      exact Except.noConfusion h
    · rcases hr : priceCart lookup rest with e | ⟨a2, l2⟩
      · simp only [priceCart, hl, hr] at h
        exact Except.noConfusion h
      · simp only [priceCart, hl, hr, Except.ok.injEq, Prod.mk.injEq] at h
        rw [← h.1, ih hr]
        simp [lineAmount, hl]

/-- The pricing pass raises the 404 error naming the first line item whose
product id does not resolve. -/
theorem priceCart_find_none {lookup : String → Option ProductDoc} :
    ∀ {items : List CheckoutItem} {it0 : CheckoutItem},
    items.find? (fun it => (lookup it.product_id).isNone) = some it0 →
    priceCart lookup items =
      .error (.http 404 ("Product not found: " ++ it0.product_id)) := by
  intro items
  induction items with
  | nil => intro it0 h; simp [List.find?] at h
  | cons hd tl ih =>
    intro it0 h
    rcases hl : lookup hd.product_id with _ | prod
    · rw [List.find?_cons_of_pos _ (by simp [hl])] at h
      injection h with h'
      subst h'
      simp [priceCart, hl]
    · rw [List.find?_cons_of_neg _ (by simp [hl])] at h
      simp [priceCart, hl, ih h]

/-- Case split on one checkout run: either it fails with some error and
leaves the store untouched, or the pipeline up to the order insert succeeded
and the result is the Stripe attempt together with exactly one appended
order. -/
theorem create_checkout_session_cases (ctx : CheckoutCtx) (store : Store)
    (payload : CheckoutRequest) :
    ((create_checkout_session ctx store payload).2 = store ∧
      ∃ e, (create_checkout_session ctx store payload).1 = .error e) ∨
    ∃ first rest amt lis order,
      payload.items = first :: rest ∧
      priceCart (buildById store.products) (first :: rest) = .ok (amt, lis) ∧
      mkOrder first.product_id (((first :: rest).map (fun it => it.quantity)).sum)
        amt payload.customer_email = .ok order ∧
      ctx.orderInsertOk = true ∧
      create_checkout_session ctx store payload =
        (.ok (stripeAttempt ctx (buildById store.products) (first :: rest) ctx.newOrderId),
          { store with orders := store.orders ++ [order] }) := by
  rcases hitems : payload.items with _ | ⟨first, rest⟩
  · have hcc : create_checkout_session ctx store payload =
        (.error (.http 400 "No items provided"), store) := by
      simp only [create_checkout_session, hitems]
    exact Or.inl ⟨by rw [hcc], ⟨.http 400 "No items provided", by rw [hcc]⟩⟩
  · rcases hpc : priceCart (buildById store.products) (first :: rest) with e | ⟨amt, lis⟩
    · have hcc : create_checkout_session ctx store payload = (.error e, store) := by
        simp only [create_checkout_session, hitems, hpc]
      exact Or.inl ⟨by rw [hcc], ⟨e, by rw [hcc]⟩⟩
    · rcases hmk : mkOrder first.product_id (((first :: rest).map (fun it => it.quantity)).sum)
          amt payload.customer_email with e | order
      · have hcc : create_checkout_session ctx store payload = (.error e, store) := by
          simp only [create_checkout_session, hitems, hpc, hmk]
        exact Or.inl ⟨by rw [hcc], ⟨e, by rw [hcc]⟩⟩
      · cases hins : ctx.orderInsertOk
        · have hcc : create_checkout_session ctx store payload =
              (.error (.storeError "order insert failed"), store) := by
            simp only [create_checkout_session, hitems, hpc, hmk, hins]
            exact if_neg (by simp)
          exact Or.inl ⟨by rw [hcc], ⟨.storeError "order insert failed", by rw [hcc]⟩⟩
        · have hcc : create_checkout_session ctx store payload =
              (.ok (stripeAttempt ctx (buildById store.products) (first :: rest) ctx.newOrderId),
                { store with orders := store.orders ++ [order] }) := by
            simp only [create_checkout_session, hitems, hpc, hmk, hins]
            exact if_pos trivial
          exact Or.inr ⟨first, rest, amt, lis, order, rfl, hpc, hmk, rfl, hcc⟩

/-! Claim theorems. -/

/-- C1: the claim says the persisted order quantity is the sum of the
clamped quantities, each taken as max(1, quantity), and that a quantity of 0
is clamped rather than rejected. The code instead sums the raw quantities
(`sum([it.quantity for it in payload.items])`), so a cart with the single
line item quantity 0 makes the Order constructor violate its own ge=1 field
constraint and the checkout fails with a validation error (HTTP 500, no
order persisted), and a cart with quantities 0 and 2 persists quantity 2
where the clamped sum is 3. -/
theorem checkout_quantity_zero_code_bug :
    (create_checkout_session ctxNoStripe storeP1 payloadQ0).1 =
      .error (.validationError "quantity: input should be greater than or equal to 1") ∧
    (create_checkout_session ctxNoStripe storeP1 payloadQ0).2.orders = [] ∧
    (create_checkout_session ctxNoStripe storeP1 payloadQ02).2.orders.map
      (fun o => o.quantity) = [2] ∧
    (payloadQ02.items.map (fun it => max 1 it.quantity)).sum = 3 :=
  ⟨rfl, rfl, rfl, by decide⟩

/-- C2: whenever a checkout run returns success, exactly one order was
persisted, and its amount_total_cents is the sum over the cart line items of
the resolved catalog price in cents times the clamped quantity
max(1, quantity). -/
theorem checkout_amount_total_correct (ctx : CheckoutCtx) (store : Store)
    (payload : CheckoutRequest) (resp : CheckoutResponse) (store2 : Store)
    (h : create_checkout_session ctx store payload = (.ok resp, store2)) :
    store2.orders.length = store.orders.length + 1 ∧
    ∀ o, store2.orders.getLast? = some o →
      o.amount_total_cents = (payload.items.map (lineAmount (buildById store.products))).sum := by
  rcases create_checkout_session_cases ctx store payload with
    ⟨_, e, he⟩ | ⟨first, rest, amt, lis, order, hitems, hpc, hmk, _, heq⟩
  · rw [h] at he
    exact Except.noConfusion he
  · rw [heq] at h
    obtain ⟨_, h2⟩ := Prod.mk.injEq .. |>.mp h
    subst h2
    constructor
    · simp
    · intro o ho
      have ho2 : o = order := by
        rw [List.getLast?_append] at ho
        simpa using ho.symm
      rw [ho2, mkOrder_ok_eq hmk, hitems]
      exact priceCart_amount hpc

/-- C2 witness: checking out a cart of one item with quantity 2 for the
5900-cent product persists an order whose total matches the clamped-quantity
sum, which evaluates to 11800 cents. -/
theorem checkout_amount_total_correct_witness :
    order2.amount_total_cents =
      (payload2.items.map (lineAmount (buildById storeP1.products))).sum ∧
    order2.amount_total_cents = 11800 :=
  ⟨(checkout_amount_total_correct ctxNoStripe storeP1 payload2
      (fallbackResponse "order123") storeP1After rfl).2 order2 rfl,
    by decide⟩

/-- C3: an empty cart makes the checkout return the 400 error and leave the
store untouched, and a cart whose first unresolvable line item is it0 makes
it return the 404 not-found error naming that product id, again leaving the
store untouched — in both cases no order record is created. -/
theorem checkout_aborts_without_persistence (ctx : CheckoutCtx) (store : Store)
    (payload : CheckoutRequest) :
    (payload.items = [] →
      create_checkout_session ctx store payload =
        (.error (.http 400 "No items provided"), store)) ∧
    (∀ it0, payload.items.find?
        (fun it => (buildById store.products it.product_id).isNone) = some it0 →
      create_checkout_session ctx store payload =
        (.error (.http 404 ("Product not found: " ++ it0.product_id)), store)) := by
  constructor
  · intro h
    simp only [create_checkout_session, h]
  · intro it0 hfind
    rcases hitems : payload.items with _ | ⟨first, rest⟩
    · rw [hitems] at hfind
      simp [List.find?] at hfind
    · rw [hitems] at hfind
      simp only [create_checkout_session, hitems, priceCart_find_none hfind]

/-- C3 witness: the empty cart gets the 400 error and the cart naming the
absent product id ghost gets the 404 error, both without touching the
store. -/
theorem checkout_aborts_without_persistence_witness :
    create_checkout_session ctxNoStripe storeP1 payloadEmptyCart =
      (.error (.http 400 "No items provided"), storeP1) ∧
    create_checkout_session ctxNoStripe storeP1 payloadGhost =
      (.error (.http 404 ("Product not found: " ++ "ghost")), storeP1) :=
  ⟨(checkout_aborts_without_persistence ctxNoStripe storeP1 payloadEmptyCart).1 rfl,
   (checkout_aborts_without_persistence ctxNoStripe storeP1 payloadGhost).2
     { product_id := "ghost" } rfl⟩

/-- C4: once the pipeline has persisted the order, an untruthy Stripe key or
a Stripe call that raises makes the checkout return success with the
deterministic mock URL built from the new order id and the non-null
explanatory note, and the order persisted in the store keeps status
created. -/
theorem checkout_fallback_mock_url (ctx : CheckoutCtx) (store : Store)
    (payload : CheckoutRequest) (first : CheckoutItem) (rest : List CheckoutItem)
    (amt : Int) (lis : List LineItem) (order : Order)
    (hitems : payload.items = first :: rest)
    (hpc : priceCart (buildById store.products) (first :: rest) = .ok (amt, lis))
    (hmk : mkOrder first.product_id (((first :: rest).map (fun it => it.quantity)).sum)
      amt payload.customer_email = .ok order)
    (hins : ctx.orderInsertOk = true)
    (hfb : isTruthy ctx.stripe_key = false ∨ ∃ e, ctx.stripeSession = .error e) :
    create_checkout_session ctx store payload =
      (.ok (fallbackResponse ctx.newOrderId),
        { store with orders := store.orders ++ [order] }) ∧
    (fallbackResponse ctx.newOrderId).checkout_url =
      "https://checkout.mock/" ++ ctx.newOrderId ∧
    (fallbackResponse ctx.newOrderId).note = some mockNote ∧
    order.status = "created" := by
  have hresp : stripeAttempt ctx (buildById store.products) (first :: rest) ctx.newOrderId =
      fallbackResponse ctx.newOrderId := by
    unfold stripeAttempt
    rcases hfb with hk | ⟨e, hs⟩
    · simp [hk]
    · cases hkey : isTruthy ctx.stripe_key
      · simp
      · cases hsl : stripeLineItems (buildById store.products) (first :: rest) with
        | none => simp [hsl]
        | some s => simp [hsl, hs]
  refine ⟨?_, rfl, rfl, ?_⟩
  · simp only [create_checkout_session, hitems, hpc, hmk, hins, hresp]
    exact if_pos trivial
  · rw [mkOrder_ok_eq hmk]

/-- C4 witness: with no Stripe key configured, checking out the quantity-2
cart returns the mock URL for the assigned order id together with the note,
and the persisted order has status created. -/
theorem checkout_fallback_mock_url_witness :
    create_checkout_session ctxNoStripe storeP1 payload2 =
      (.ok (fallbackResponse "order123"),
        { storeP1 with orders := storeP1.orders ++ [order2] }) ∧
    (fallbackResponse "order123").checkout_url = "https://checkout.mock/" ++ "order123" ∧
    (fallbackResponse "order123").note = some mockNote ∧
    order2.status = "created" :=
  checkout_fallback_mock_url ctxNoStripe storeP1 payload2
    { product_id := "p1", quantity := 2 } [] 11800
    [{ name := some "Citrus Bloom", amount := 5900, currency := "usd", quantity := 2 }]
    order2 rfl rfl rfl rfl (Or.inl rfl)

/-- C5: when the credential parses neither directly as JSON nor through the
base64 fallback, the sheets sync is a silent no-op, and a lead whose
persistence succeeded still gets a success response with a null
google_range; moreover a credential that parses directly never consults the
base64 path. -/
theorem sheets_credential_fallback_silent (sctx : SheetsCtx) (lead : Lead)
    (inserted_id : String) (saj : String)
    (hsaj : sctx.service_account_json = some saj)
    (hjson : sctx.jsonParse saj = none)
    (hb64 : sctx.b64decode saj = none ∨
      ∃ d, sctx.b64decode saj = some d ∧ sctx.jsonParse d = none) :
    append_lead_to_google_sheets sctx lead = none ∧
    create_lead sctx (.ok inserted_id) lead =
      .ok { status := "ok", id := inserted_id, google_range := none } ∧
    (∀ s info, sctx.jsonParse s = some info →
      parseServiceAccount sctx.jsonParse sctx.b64decode s = some info) := by
  have hparse : parseServiceAccount sctx.jsonParse sctx.b64decode saj = none := by
    rcases hb64 with h | ⟨d, hd, hdp⟩
    · simp [parseServiceAccount, hjson, h]
    · simp [parseServiceAccount, hjson, hd, hdp]
  have happ : append_lead_to_google_sheets sctx lead = none := by
    rcases hsid : sctx.spreadsheet_id with _ | sid
    · simp [append_lead_to_google_sheets, hsid]
    · cases hb : (sid == "" || saj == "")
      · cases hg : sctx.googleLibsOk
        · simp [append_lead_to_google_sheets, hsid, hsaj, hb, hg]
        · simp [append_lead_to_google_sheets, hsid, hsaj, hb, hg, hparse]
      · simp [append_lead_to_google_sheets, hsid, hsaj, hb]
  refine ⟨happ, ?_, ?_⟩
  · simp [create_lead, happ]
  · intro s info hinfo
    simp [parseServiceAccount, hinfo]

/-- C5 witness: a credential that fails both parses leaves the sync a no-op
and the lead intake still returns success with a null google_range. -/
theorem sheets_credential_fallback_silent_witness :
    append_lead_to_google_sheets sctxBadCred lead0 = none ∧
    create_lead sctxBadCred (.ok "lead1") lead0 =
      .ok { status := "ok", id := "lead1", google_range := none } :=
  ⟨(sheets_credential_fallback_silent sctxBadCred lead0 "lead1" "%%%"
      rfl rfl (Or.inl rfl)).1,
   (sheets_credential_fallback_silent sctxBadCred lead0 "lead1" "%%%"
      rfl rfl (Or.inl rfl)).2.1⟩

/-- C6: the seeder inserts nothing when the existence query returns a
non-empty result or raises, and consequently running it twice on a store
that already holds a product leaves the store exactly as it was. -/
theorem seeder_idempotent (queryFails : Bool) (insertOk : Product → Bool)
    (toDoc : Product → ProductDoc) (store : List ProductDoc) :
    ((store ≠ [] ∨ queryFails = true) →
      ensure_sample_products queryFails insertOk toDoc store = store) ∧
    (store ≠ [] → ∀ (qf2 : Bool) (io2 : Product → Bool) (td2 : Product → ProductDoc),
      ensure_sample_products qf2 io2 td2
        (ensure_sample_products queryFails insertOk toDoc store) = store) := by
  have key : ∀ (qf : Bool) (io : Product → Bool) (td : Product → ProductDoc)
      (st : List ProductDoc), (st ≠ [] ∨ qf = true) →
      ensure_sample_products qf io td st = st := by
    intro qf io td st hst
    unfold ensure_sample_products
    rcases hst with hne | hq
    · rcases st with _ | ⟨x, xs⟩
      · exact absurd rfl hne
      · cases qf <;> simp
    · rw [hq]
      simp
  constructor
  · exact key queryFails insertOk toDoc store
  · intro hne qf2 io2 td2
    rw [key queryFails insertOk toDoc store (Or.inl hne)]
    exact key qf2 io2 td2 store (Or.inl hne)

/-- C6 witness: on a store already holding a product the seeder is a no-op,
and running it twice still returns the original store. -/
theorem seeder_idempotent_witness :
    ensure_sample_products false (fun _ => true) (fun _ => p1doc) [p1doc] = [p1doc] ∧
    ensure_sample_products true (fun _ => true) (fun _ => p1doc)
      (ensure_sample_products false (fun _ => true) (fun _ => p1doc) [p1doc]) = [p1doc] :=
  ⟨(seeder_idempotent false (fun _ => true) (fun _ => p1doc) [p1doc]).1
      (Or.inl (by decide)),
   (seeder_idempotent false (fun _ => true) (fun _ => p1doc) [p1doc]).2
      (by decide) true (fun _ => true) (fun _ => p1doc)⟩

/-- C7: the diagnostics route always returns a status object: the backend
field is always set, at most 10 collection names are reported, a failing
collection listing is rendered as the descriptive status string with the
error text truncated to 80 characters, and a successful listing reports the
first 10 collection names. -/
theorem store_health_total (db : Option DbHandle) (database_url : Option String) :
    (test_database db database_url).backend = "✅ Running" ∧
    (test_database db database_url).collections.length ≤ 10 ∧
    (∀ h e, db = some h → h.listCollections = .error e →
      (test_database db database_url).database = "⚠️ Connected but Error: " ++ e.take 80) ∧
    (∀ h cols, db = some h → h.listCollections = .ok cols →
      (test_database db database_url).collections = cols.take 10) := by
  rcases db with _ | hd
  · refine ⟨rfl, by simp [test_database], ?_, ?_⟩
    · intro h e hdb
      exact Option.noConfusion hdb
    · intro h cols hdb
      exact Option.noConfusion hdb
  · rcases hlc : hd.listCollections with e | cols
    · refine ⟨by simp [test_database, hlc], by simp [test_database, hlc], ?_, ?_⟩
      · intro h e' hdb hlc'
        injection hdb with hh
        subst hh
        rw [hlc] at hlc'
        injection hlc' with he
        subst he
        simp [test_database, hlc]
      · intro h cols' hdb hlc'
        injection hdb with hh
        subst hh
        rw [hlc] at hlc'
        exact Except.noConfusion hlc'
    · refine ⟨by simp [test_database, hlc], ?_, ?_, ?_⟩
      · simp only [test_database, hlc]
        rw [List.length_take]
        exact min_le_left _ _
      · intro h e' hdb hlc'
        injection hdb with hh
        subst hh
        rw [hlc] at hlc'
        exact Except.noConfusion hlc'
      · intro h cols' hdb hlc'
        injection hdb with hh
        subst hh
        rw [hlc] at hlc'
        injection hlc' with hc
        subst hc
        simp [test_database, hlc]

/-- C7 witness: a handle whose collection listing raises with message boom
still yields a bounded response whose database field is the descriptive
status string. -/
theorem store_health_total_witness :
    (test_database (some dbErrHandle) (some "mongodb://x")).backend = "✅ Running" ∧
    (test_database (some dbErrHandle) (some "mongodb://x")).collections.length ≤ 10 ∧
    (test_database (some dbErrHandle) (some "mongodb://x")).database =
      "⚠️ Connected but Error: " ++ ("boom".take 80) :=
  ⟨(store_health_total (some dbErrHandle) (some "mongodb://x")).1,
   (store_health_total (some dbErrHandle) (some "mongodb://x")).2.1,
   (store_health_total (some dbErrHandle) (some "mongodb://x")).2.2.1
      dbErrHandle "boom" rfl rfl⟩

/-- C8: every order present in the store after a checkout run either was
there before or has no checkout session id: no code path writes the Stripe
session id back to the order record. -/
theorem order_checkout_session_id_none (ctx : CheckoutCtx) (store : Store)
    (payload : CheckoutRequest) (r : Except ApiError CheckoutResponse) (store2 : Store)
    (h : create_checkout_session ctx store payload = (r, store2))
    (o : Order) (ho : o ∈ store2.orders) :
    o ∈ store.orders ∨ o.checkout_session_id = none := by
  rcases create_checkout_session_cases ctx store payload with
    ⟨hs, _, _⟩ | ⟨first, rest, amt, lis, order, hitems, hpc, hmk, _, heq⟩
  · rw [h] at hs
    exact Or.inl (hs ▸ ho)
  · rw [heq] at h
    obtain ⟨_, h2⟩ := Prod.mk.injEq .. |>.mp h
    subst h2
    rcases List.mem_append.mp ho with hin | hone
    · exact Or.inl hin
    · right
      have ho2 : o = order := by simpa using hone
      rw [ho2, mkOrder_ok_eq hmk]

/-- C8 witness: the order persisted by the concrete checkout of the
quantity-2 cart carries no checkout session id. -/
theorem order_checkout_session_id_none_witness :
    order2 ∈ storeP1.orders ∨ order2.checkout_session_id = none :=
  order_checkout_session_id_none ctxNoStripe storeP1 payload2
    (.ok (fallbackResponse "order123")) storeP1After rfl order2 (by decide)

/-- C9: a resolved product whose price_cents field is missing or zero is
priced at unit price 0 by the coercion int(price or 0): the line item adds
nothing to the running total and its Stripe counterpart carries unit amount
0, with no error raised. -/
theorem falsy_price_contributes_zero (lookup : String → Option ProductDoc)
    (it : CheckoutItem) (prod : ProductDoc) (rest : List CheckoutItem)
    (a2 : Int) (l2 : List LineItem)
    (hl : lookup it.product_id = some prod)
    (hfalsy : prod.price_cents = none ∨ prod.price_cents = some 0)
    (hr : priceCart lookup rest = .ok (a2, l2)) :
    priceCart lookup (it :: rest) =
      .ok (a2, { name := prod.title, amount := 0,
                 currency := prod.currency.getD "usd",
                 quantity := max 1 it.quantity } :: l2) ∧
    (∀ s2, stripeLineItems lookup rest = some s2 →
      stripeLineItems lookup (it :: rest) = some
        ({ currency := prod.currency.getD "usd", product_name := prod.title,
           unit_amount := 0, quantity := max 1 it.quantity } :: s2)) := by
  have hz : pyOrZeroInt prod.price_cents = 0 := by
    rcases hfalsy with h | h <;> simp [h, pyOrZeroInt]
  constructor
  · simp [priceCart, hl, hr, hz]
  · intro s2 hs2
    simp [stripeLineItems, hl, hs2, hz]

/-- C9 witness: a cart line of quantity 3 for the catalog document with no
recorded price contributes amount 0 and a unit amount 0 Stripe line. -/
theorem falsy_price_contributes_zero_witness :
    priceCart (buildById [pfreedoc]) [{ product_id := "free", quantity := 3 }] =
      .ok (0, [{ name := some "Sample", amount := 0, currency := "usd", quantity := 3 }]) ∧
    stripeLineItems (buildById [pfreedoc]) [{ product_id := "free", quantity := 3 }] =
      some [{ currency := "usd", product_name := some "Sample",
              unit_amount := 0, quantity := 3 }] :=
  ⟨(falsy_price_contributes_zero (buildById [pfreedoc])
      { product_id := "free", quantity := 3 } pfreedoc [] 0 []
      rfl (Or.inl rfl) rfl).1,
   (falsy_price_contributes_zero (buildById [pfreedoc])
      { product_id := "free", quantity := 3 } pfreedoc [] 0 []
      rfl (Or.inl rfl) rfl).2 [] rfl⟩

/-- C10: a checkout run never changes the product collection, and against an
empty catalog a non-empty cart fails with the 404 error naming the first
item while leaving the whole store (products included) untouched — the
seeder is never invoked from the checkout path. -/
theorem checkout_preserves_catalog (ctx : CheckoutCtx) (store : Store)
    (payload : CheckoutRequest) :
    (create_checkout_session ctx store payload).2.products = store.products ∧
    (store.products = [] → ∀ first rest, payload.items = first :: rest →
      create_checkout_session ctx store payload =
        (.error (.http 404 ("Product not found: " ++ first.product_id)), store)) := by
  constructor
  · rcases create_checkout_session_cases ctx store payload with
      ⟨hs, _, _⟩ | ⟨_, _, _, _, _, _, _, _, _, heq⟩
    · rw [hs]
    · rw [heq]
  · intro hempty first rest hitems
    have hl : buildById store.products first.product_id = none := by
      rw [hempty]
      rfl
    have hpc : priceCart (buildById store.products) (first :: rest) =
        .error (.http 404 ("Product not found: " ++ first.product_id)) := by
      simp [priceCart, hl]
    simp only [create_checkout_session, hitems, hpc]

/-- C10 witness: checking out against the empty, never-listed catalog
returns the 404 error for the unknown product and leaves the catalog
empty. -/
theorem checkout_preserves_catalog_witness :
    (create_checkout_session ctxNoStripe storeEmpty payloadGhost).2.products =
      storeEmpty.products ∧
    create_checkout_session ctxNoStripe storeEmpty payloadGhost =
      (.error (.http 404 ("Product not found: " ++ "ghost")), storeEmpty) :=
  ⟨(checkout_preserves_catalog ctxNoStripe storeEmpty payloadGhost).1,
   (checkout_preserves_catalog ctxNoStripe storeEmpty payloadGhost).2 rfl
     { product_id := "ghost" } [] rfl⟩

end Backend
